import Mathlib

/-!
Verification of the Silent Scalper file-processing pipeline
(`src/lambda/FileProcessor/lambda_function.py` and
`src/lambda/GetPresignedURL/lambda_function.py`).

The Python source is shallowly embedded: Python runtime values appearing in
the pipeline (JSON-parsed data, record fields) are modelled by the mutual
inductive `Py`; Python exceptions by `PyErr`; fallible Python code by
`Except PyErr`.  External collaborators (S3, DynamoDB via boto3, the wall
clock, uuid4) are modelled as an explicit environment of response functions,
and the store calls the handler issues are recorded in an effect trace.
-/

namespace SilentScalper

mutual
/-- Model of the Python values that flow through the pipeline: the results of
`json.loads` (None, bool, int, float, str, list, dict with string keys) and
the values stored in record dictionaries.  A float carries the literal text
it was parsed from (for NaN and the infinities a fixed spelling): its numeric
value and Python's float formatting are outside the model — no claim
exercises them; the operations the pipeline applies to a float (`in`,
subscript) depend only on its type.  `PyList` and `PyDict` are the Python
list and dict spines, kept as mutual inductives so that recursion over
nested values is structural. -/
inductive Py where
  | none : Py
  | bool (b : Bool) : Py
  | int (n : Int) : Py
  | float (lit : String) : Py
  | str (s : String) : Py
  | list (xs : PyList) : Py
  | dict (kvs : PyDict) : Py

inductive PyList where
  | nil : PyList
  | cons (hd : Py) (tl : PyList) : PyList

inductive PyDict where
  | nil : PyDict
  | cons (k : String) (v : Py) (tl : PyDict) : PyDict
end

deriving instance DecidableEq for Py, PyList, PyDict

/-- Model of the Python exceptions the embedded code can raise or receive
from its collaborators. -/
inductive PyErr where
  | keyError (k : String) : PyErr
  | typeError (msg : String) : PyErr
  | attributeError (msg : String) : PyErr
  | indexError (msg : String) : PyErr
  | clientError (msg : String) : PyErr
deriving DecidableEq

/-- Model of Python `str(e)` on an exception value.  For `KeyError` Python
renders the missing key in quotes; the other exceptions render their
message. -/
def errStr : PyErr → String
  | .keyError k => "'" ++ k ++ "'"
  | .typeError m => m
  | .attributeError m => m
  | .indexError m => m
  | .clientError m => m

/-- Does the key occur in the dict spine? (Python `k in d` for a dict.) -/
def dictContains : PyDict → String → Bool
  | .nil, _ => false
  | .cons k _ tl, key => (k == key) || dictContains tl key

/-- Lookup in the dict spine (first occurrence; parse results have unique
keys because insertion overwrites, see `dictSet`). -/
def dictGet? : PyDict → String → Option Py
  | .nil, _ => Option.none
  | .cons k v tl, key => if k = key then some v else dictGet? tl key

/-- Insert with overwrite, modelling Python dict assignment: a later value
for an existing key replaces the earlier one (as `json.loads` does for
duplicate object keys). -/
def dictSet : PyDict → String → Py → PyDict
  | .nil, key, v => .cons key v .nil
  | .cons k w tl, key, v =>
      if k = key then .cons k v tl else .cons k w (dictSet tl key v)

/-- Python `s in xs` for a list when `s` is a string: membership by equality;
non-string elements never equal a string. -/
def pyListHasStr : PyList → String → Bool
  | .nil, _ => false
  | .cons (.str s) tl, key => (s == key) || pyListHasStr tl key
  | .cons _ tl, key => pyListHasStr tl key

/-- `xs` begins with `pat`. -/
def listStartsWith : List Char → List Char → Bool
  | [], _ => true
  | _ :: _, [] => false
  | a :: as, b :: bs => (a == b) && listStartsWith as bs

/-- `pat` occurs as a contiguous run inside `xs`. -/
def listHasRun (pat : List Char) : List Char → Bool
  | [] => listStartsWith pat []
  | c :: cs => listStartsWith pat (c :: cs) || listHasRun pat cs

/-- Python `pat in s` for strings: contiguous substring test. -/
def strHasSub (s pat : String) : Bool :=
  listHasRun pat.toList s.toList

/-- Python `in` on an arbitrary value (`key in data`): substring test on a
string, membership on a list, key test on a dict; `TypeError` on the
non-iterable values None, bool, int and float. -/
def pyContains (data : Py) (key : String) : Except PyErr Bool :=
  match data with
  | .dict d => .ok (dictContains d key)
  | .str s => .ok (strHasSub s key)
  | .list xs => .ok (pyListHasStr xs key)
  | .none => .error (.typeError "argument of type NoneType is not iterable")
  | .bool _ => .error (.typeError "argument of type bool is not iterable")
  | .int _ => .error (.typeError "argument of type int is not iterable")
  | .float _ => .error (.typeError "argument of type float is not iterable")

/-- Python subscript with a string key (`data[key]`): dict lookup
(`KeyError` when absent); `TypeError` on every other value (string and list
subscripts require integers). -/
def pySubscript (data : Py) (key : String) : Except PyErr Py :=
  match data with
  | .dict d =>
      match dictGet? d key with
      | some v => .ok v
      | Option.none => .error (.keyError key)
  | .str _ => .error (.typeError "string indices must be integers")
  | .list _ => .error (.typeError "list indices must be integers or slices, not str")
  | .none => .error (.typeError "NoneType object is not subscriptable")
  | .bool _ => .error (.typeError "bool object is not subscriptable")
  | .int _ => .error (.typeError "int object is not subscriptable")
  | .float _ => .error (.typeError "float object is not subscriptable")

/-- Nth element of a Python list spine. -/
def pyListGet? : PyList → Nat → Option Py
  | .nil, _ => Option.none
  | .cons hd _, 0 => some hd
  | .cons _ tl, n + 1 => pyListGet? tl n

/-- Python subscript with a non-negative integer (`data[i]`). -/
def pyIndex (data : Py) (i : Nat) : Except PyErr Py :=
  match data with
  | .list xs =>
      match pyListGet? xs i with
      | some v => .ok v
      | Option.none => .error (.indexError "list index out of range")
  | .str s =>
      match s.toList.get? i with
      | some c => .ok (.str (String.mk [c]))
      | Option.none => .error (.indexError "string index out of range")
  | .dict _ => .error (.keyError (toString i))
  | .none => .error (.typeError "NoneType object is not subscriptable")
  | .bool _ => .error (.typeError "bool object is not subscriptable")
  | .int _ => .error (.typeError "int object is not subscriptable")
  | .float _ => .error (.typeError "float object is not subscriptable")

/-- Does a float literal denote zero?  Every character of its mantissa (the
part before any exponent marker) is a zero digit, a sign or the point; the
literals of NaN and the infinities contain other letters and so are
non-zero. -/
def floatLitIsZero (lit : String) : Bool :=
  (lit.toList.takeWhile (fun c => (c != 'e') && (c != 'E'))).all
    (fun c => (c == '0') || (c == '-') || (c == '+') || (c == '.'))

/-- Python truthiness (`bool(v)`): None and False are falsy, numbers are
falsy at zero, strings and containers are falsy when empty. -/
def pyTruthy : Py → Bool
  | .none => false
  | .bool b => b
  | .int n => n != 0
  | .float lit => !(floatLitIsZero lit)
  | .str s => s != ""
  | .list .nil => false
  | .list (.cons _ _) => true
  | .dict .nil => false
  | .dict (.cons _ _ _) => true

mutual
/-- Model of Python `repr(v)` for the modelled values (string escaping inside
reprs is not modelled; no claim exercises it). -/
def pyRepr : Py → String
  | .none => "None"
  | .bool true => "True"
  | .bool false => "False"
  | .int n => toString n
  | .float lit => lit
  | .str s => "'" ++ s ++ "'"
  | .list xs => "[" ++ pyReprList xs ++ "]"
  | .dict d => "\x7b" ++ pyReprDict d ++ "\x7d"

def pyReprList : PyList → String
  | .nil => ""
  | .cons hd .nil => pyRepr hd
  | .cons hd tl => pyRepr hd ++ ", " ++ pyReprList tl

def pyReprDict : PyDict → String
  | .nil => ""
  | .cons k v .nil => "'" ++ k ++ "': " ++ pyRepr v
  | .cons k v tl => "'" ++ k ++ "': " ++ pyRepr v ++ ", " ++ pyReprDict tl
end

/-- Model of Python `str(v)`: identity on strings, `repr`-like on everything
else. -/
def pyStr : Py → String
  | .str s => s
  | v => pyRepr v

/-- JSON insignificant whitespace. -/
def isWsChar (c : Char) : Bool :=
  (c == ' ') || (c == '\t') || (c == '\n') || (c == '\r')

/-- Drop leading JSON whitespace. -/
def skipWs : List Char → List Char
  | [] => []
  | c :: cs => if isWsChar c then skipWs cs else c :: cs

/-- Decimal digit test. -/
def isDigitCh (c : Char) : Bool :=
  ('0' ≤ c) && (c ≤ '9')

/-- Split off a maximal (possibly empty) run of decimal digits. -/
def spanDigits : List Char → List Char × List Char
  | [] => ([], [])
  | c :: cs =>
      if isDigitCh c then
        match spanDigits cs with
        | (ds, rest) => (c :: ds, rest)
      else ([], c :: cs)

/-- Value of a run of decimal digits. -/
def digitsToNat (acc : Nat) : List Char → Nat
  | [] => acc
  | c :: cs => digitsToNat (acc * 10 + (c.toNat - '0'.toNat)) cs

/-- Scan a JSON fraction part: a point followed by at least one digit;
anything else is left unconsumed (as the longest-match number tokenizer of
Python `json` does). -/
def scanFrac : List Char → List Char × List Char
  | '.' :: c :: cs =>
      if isDigitCh c then
        match spanDigits cs with
        | (ds, rest) => ('.' :: c :: ds, rest)
      else ([], '.' :: c :: cs)
  | cs => ([], cs)

/-- Scan a JSON exponent part: an exponent marker, an optional sign and at
least one digit; anything else is left unconsumed. -/
def scanExp : List Char → List Char × List Char
  | c :: cs =>
      if (c == 'e') || (c == 'E') then
        match cs with
        | s :: rest =>
            if (s == '+') || (s == '-') then
              match rest with
              | d :: rest2 =>
                  if isDigitCh d then
                    match spanDigits rest2 with
                    | (ds, rest3) => (c :: s :: d :: ds, rest3)
                  else ([], c :: s :: d :: rest2)
              | [] => ([], [c, s])
            else if isDigitCh s then
              match spanDigits rest with
              | (ds, rest2) => (c :: s :: ds, rest2)
            else ([], c :: s :: rest)
        | [] => ([], [c])
      else ([], c :: cs)
  | [] => ([], [])

/-- Finish a JSON number whose optional sign and integer part are already
consumed: a well-formed fraction and/or exponent makes it a float carrying
its literal text, otherwise it is an integer. -/
def numberValue (neg : Bool) (intChars : List Char) (cs : List Char) :
    Py × List Char :=
  match scanFrac cs with
  | (fracChars, cs1) =>
    match scanExp cs1 with
    | (expChars, cs2) =>
        if fracChars.isEmpty && expChars.isEmpty then
          (if neg then .int (-(digitsToNat 0 intChars : Int))
           else .int (digitsToNat 0 intChars : Int), cs2)
        else
          (.float (String.mk
            ((if neg then ['-'] else []) ++ intChars ++ fracChars ++ expChars)),
           cs2)

/-- Hexadecimal digit value. -/
def hexVal (c : Char) : Option Nat :=
  if isDigitCh c then some (c.toNat - '0'.toNat)
  else if ('a' ≤ c) && (c ≤ 'f') then some (c.toNat - 'a'.toNat + 10)
  else if ('A' ≤ c) && (c ≤ 'F') then some (c.toNat - 'A'.toNat + 10)
  else Option.none

/-- Value of a four-digit hexadecimal escape. -/
def hexQuad (a b c d : Char) : Option Nat :=
  match hexVal a, hexVal b, hexVal c, hexVal d with
  | some ha, some hb, some hc, some hd =>
      some (((ha * 16 + hb) * 16 + hc) * 16 + hd)
  | _, _, _, _ => Option.none

/-- Scan a JSON string literal body (the opening quote already consumed) up
to the closing quote, as Python `json.loads` does in its default strict
mode: the short escapes map to their characters, `\uXXXX` escapes map to
the escaped character with surrogate pairs combined, and a raw control
character is a decode error.  A lone-surrogate escape, which Python decodes
to a string no `Char` can hold, is unrepresentable and reported as an
error — the one place this scanner is narrower than Python. -/
def scanStringLit (acc : List Char) : List Char → Except String (String × List Char)
  | [] => .error "Unterminated string"
  | '"' :: cs => .ok (String.mk acc.reverse, cs)
  | '\\' :: '"' :: cs => scanStringLit ('"' :: acc) cs
  | '\\' :: '\\' :: cs => scanStringLit ('\\' :: acc) cs
  | '\\' :: '/' :: cs => scanStringLit ('/' :: acc) cs
  | '\\' :: 'b' :: cs => scanStringLit ('\x08' :: acc) cs
  | '\\' :: 'f' :: cs => scanStringLit ('\x0c' :: acc) cs
  | '\\' :: 'n' :: cs => scanStringLit ('\n' :: acc) cs
  | '\\' :: 't' :: cs => scanStringLit ('\t' :: acc) cs
  | '\\' :: 'r' :: cs => scanStringLit ('\r' :: acc) cs
  | '\\' :: 'u' :: a :: b :: c :: d :: cs =>
      (match hexQuad a b c d with
       | Option.none => .error "Invalid \\uXXXX escape"
       | some n =>
           if n < 0xd800 then scanStringLit (Char.ofNat n :: acc) cs
           else if n ≤ 0xdbff then
             match cs with
             | '\\' :: 'u' :: a2 :: b2 :: c2 :: d2 :: cs2 =>
                 (match hexQuad a2 b2 c2 d2 with
                  | Option.none => .error "Invalid \\uXXXX escape"
                  | some m =>
                      if (0xdc00 ≤ m) && (m ≤ 0xdfff) then
                        scanStringLit
                          (Char.ofNat
                            (0x10000 + (n - 0xd800) * 0x400 + (m - 0xdc00))
                            :: acc) cs2
                      else .error "Lone surrogate escape (unrepresentable)")
             | _ => .error "Lone surrogate escape (unrepresentable)"
           else if n ≤ 0xdfff then
             .error "Lone surrogate escape (unrepresentable)"
           else scanStringLit (Char.ofNat n :: acc) cs)
  | '\\' :: _ :: _ => .error "Unsupported escape"
  | '\\' :: [] => .error "Unterminated string"
  | c :: cs =>
      if c.toNat < 32 then .error "Invalid control character"
      else scanStringLit (c :: acc) cs

mutual
/-- Recursive-descent JSON value parser over the grammar Python's
`json.loads` accepts by default: null, true, false, the constants NaN,
Infinity and -Infinity, integers and floats (longest-match tokenization, no
leading zeros), strings, arrays, objects.  `fuel` strictly decreases on
every recursive call; `json_loads` supplies enough fuel that exhaustion is
unreachable for its inputs. -/
def parseVal (fuel : Nat) (cs : List Char) : Except String (Py × List Char) :=
  match fuel with
  | 0 => .error "Fuel exhausted"
  | fuel + 1 =>
    match skipWs cs with
    | 'n' :: 'u' :: 'l' :: 'l' :: rest => .ok (.none, rest)
    | 't' :: 'r' :: 'u' :: 'e' :: rest => .ok (.bool true, rest)
    | 'f' :: 'a' :: 'l' :: 's' :: 'e' :: rest => .ok (.bool false, rest)
    | '"' :: rest =>
        match scanStringLit [] rest with
        | .error e => .error e
        | .ok (s, rest2) => .ok (.str s, rest2)
    | '[' :: rest =>
        (match skipWs rest with
         | ']' :: rest2 => .ok (.list .nil, rest2)
         | other =>
             match parseElems fuel other with
             | .error e => .error e
             | .ok (xs, rest2) =>
                 match skipWs rest2 with
                 | ']' :: rest3 => .ok (.list xs, rest3)
                 | _ => .error "Expecting close bracket")
    | '\x7b' :: rest =>
        (match skipWs rest with
         | '\x7d' :: rest2 => .ok (.dict .nil, rest2)
         | other =>
             match parseMembers fuel .nil other with
             | .error e => .error e
             | .ok (d, rest2) =>
                 match skipWs rest2 with
                 | '\x7d' :: rest3 => .ok (.dict d, rest3)
                 | _ => .error "Expecting close brace")
    | 'N' :: 'a' :: 'N' :: rest => .ok (.float "nan", rest)
    | 'I' :: 'n' :: 'f' :: 'i' :: 'n' :: 'i' :: 't' :: 'y' :: rest =>
        .ok (.float "inf", rest)
    | '-' :: 'I' :: 'n' :: 'f' :: 'i' :: 'n' :: 'i' :: 't' :: 'y' :: rest =>
        .ok (.float "-inf", rest)
    | '-' :: '0' :: rest =>
        (match numberValue true ['0'] rest with
         | (v, rest2) => .ok (v, rest2))
    | '-' :: c :: rest =>
        if isDigitCh c then
          match spanDigits rest with
          | (ds, rest2) =>
              match numberValue true (c :: ds) rest2 with
              | (v, rest3) => .ok (v, rest3)
        else .error "Expecting value"
    | '0' :: rest =>
        (match numberValue false ['0'] rest with
         | (v, rest2) => .ok (v, rest2))
    | c :: rest =>
        if isDigitCh c then
          match spanDigits rest with
          | (ds, rest2) =>
              match numberValue false (c :: ds) rest2 with
              | (v, rest3) => .ok (v, rest3)
        else .error "Expecting value"
    | [] => .error "Expecting value"

/-- Comma-separated JSON array elements (at least one). -/
def parseElems (fuel : Nat) (cs : List Char) : Except String (PyList × List Char) :=
  match fuel with
  | 0 => .error "Fuel exhausted"
  | fuel + 1 =>
    match parseVal fuel cs with
    | .error e => .error e
    | .ok (v, rest) =>
        match skipWs rest with
        | ',' :: rest2 =>
            (match parseElems fuel rest2 with
             | .error e => .error e
             | .ok (xs, rest3) => .ok (.cons v xs, rest3))
        | other => .ok (.cons v .nil, other)

/-- Comma-separated JSON object members (at least one); duplicate keys are
overwritten left to right as `json.loads` does. -/
def parseMembers (fuel : Nat) (acc : PyDict) (cs : List Char) :
    Except String (PyDict × List Char) :=
  match fuel with
  | 0 => .error "Fuel exhausted"
  | fuel + 1 =>
    match skipWs cs with
    | '"' :: rest =>
        (match scanStringLit [] rest with
         | .error e => .error e
         | .ok (k, rest2) =>
             match skipWs rest2 with
             | ':' :: rest3 =>
                 (match parseVal fuel rest3 with
                  | .error e => .error e
                  | .ok (v, rest4) =>
                      match skipWs rest4 with
                      | ',' :: rest5 => parseMembers fuel (dictSet acc k v) rest5
                      | other => .ok (dictSet acc k v, other))
             | _ => .error "Expecting colon delimiter"
         )
    | _ => .error "Expecting property name enclosed in double quotes"
end

/-- Model of the external Python stdlib call `json.loads` on string input.
The grammar follows Python's default decoder: null/true/false, NaN and the
infinities, integers and floats (floats carry their literal text, their
numeric value being outside the model), strings with escapes and surrogate
pairs, arrays, and objects with last-wins duplicate keys; leading-zero
integers, raw control characters in strings and trailing input are decode
errors, as in Python.  The one narrowing: a lone-surrogate escape, which
Python decodes to a string `Char` cannot hold, is reported as a decode
error.  On string input `json.loads` raises only `json.JSONDecodeError`,
modelled here as `Except.error` carrying the message. -/
def json_loads (s : String) : Except String Py :=
  match parseVal (2 * s.length + 2) s.toList with
  | .error e => .error e
  | .ok (v, rest) =>
      match skipWs rest with
      | [] => .ok v
      | _ => .error "Extra data"

/-- ASCII lowercase map, modelling Python `str.lower()` character by
character (the pipeline's keyword is ASCII; non-ASCII case folding is
outside the model). -/
def charLower : Char → Char
  | 'A' => 'a' | 'B' => 'b' | 'C' => 'c' | 'D' => 'd' | 'E' => 'e'
  | 'F' => 'f' | 'G' => 'g' | 'H' => 'h' | 'I' => 'i' | 'J' => 'j'
  | 'K' => 'k' | 'L' => 'l' | 'M' => 'm' | 'N' => 'n' | 'O' => 'o'
  | 'P' => 'p' | 'Q' => 'q' | 'R' => 'r' | 'S' => 's' | 'T' => 't'
  | 'U' => 'u' | 'V' => 'v' | 'W' => 'w' | 'X' => 'x' | 'Y' => 'y'
  | 'Z' => 'z'
  | c => c

/-- Model of Python `s.lower()`. -/
def strLower (s : String) : String :=
  String.mk (s.toList.map charLower)

/-- Embeds `validate_file_content` from
`src/lambda/FileProcessor/lambda_function.py`: empty content is rejected,
content whose lower-cased text lacks the substring "job_id" is rejected,
everything else is accepted. -/
def validate_file_content (file_content : String) : Bool × String :=
  if file_content = "" then (false, "File is empty")
  else if !(strHasSub (strLower file_content) "job_id") then
    (false, "Content missing 'job_id' keyword")
  else (true, "Valid")

/-- Everything after the first occurrence of a dash, when there is one. -/
def afterFirstDash : List Char → Option (List Char)
  | [] => Option.none
  | c :: cs => if c = '-' then some cs else afterFirstDash cs

/-- Embeds the filename recovery expression
`s3_key.split('-', 1)[-1] if '-' in s3_key else s3_key` used in
`extract_metadata` and in the failure branch of `lambda_handler`. -/
def original_filename_of (s3_key : String) : String :=
  match afterFirstDash s3_key.toList with
  | some rest => String.mk rest
  | Option.none => s3_key

/-- Is there a dash in the character list? -/
def hasDash : List Char → Bool
  | [] => false
  | c :: cs => (c == '-') || hasDash cs

/-- UTF-8 byte length of a string (`len(s.encode('utf-8'))`). -/
def utf8Len (s : String) : Nat := s.utf8ByteSize

/-- A record written to the metadata store: a Python dict literal, modelled
as its key/value list in construction order. -/
abbrev Item := List (String × Py)

/-- First-match lookup in a record. -/
def itemGet? : Item → String → Option Py
  | [], _ => Option.none
  | (k, v) :: rest, key => if k = key then some v else itemGet? rest key

/-- Embeds `extract_metadata` from
`src/lambda/FileProcessor/lambda_function.py`.  `json.loads` is attempted on
the content; a decode error is swallowed (`except json.JSONDecodeError:
pass`), leaving the default JobId "UNKNOWN"; any other exception raised
inside the `try` block (for example the `TypeError` from `'job_id' in data`
when `data` is not a container) propagates to the caller, hence the
`Except PyErr` result.  `now` stands for `datetime.now().isoformat()`. -/
def extract_metadata (file_content s3_key now : String) :
    Except PyErr Item :=
  let jobIdRes : Except PyErr Py :=
    match json_loads file_content with
    | .error _ => .ok (.str "UNKNOWN")
    | .ok data =>
        match pyContains data "job_id" with
        | .error e => .error e
        | .ok true => pySubscript data "job_id"
        | .ok false =>
            match pyContains data "JobId" with
            | .error e => .error e
            | .ok true => pySubscript data "JobId"
            | .ok false => .ok (.str "UNKNOWN")
  match jobIdRes with
  | .error e => .error e
  | .ok job_id =>
      .ok [("JobId", .str (pyStr job_id)),
           ("OriginalFileName", .str (original_filename_of s3_key)),
           ("S3Key", .str s3_key),
           ("FileSize", .int (utf8Len file_content : Int)),
           ("ProcessingTimestamp", .str now)]

/-- A store call issued by the handler.  `getObject` covers
`s3_client.get_object`, `putItem` covers `dynamodb_table.put_item`,
`copyObject` covers `s3_client.copy_object` (destination bucket, copy-source
bucket and key, destination key), and `deleteObject` covers
`s3_client.delete_object`, which the source keeps commented out and never
issues.  The source bucket travels as the `Py` value taken from the event. -/
inductive Effect where
  | getObject (bucket : Py) (key : String) : Effect
  | putItem (item : Item) : Effect
  | copyObject (destBucket : String) (srcBucket : Py) (srcKey destKey : String) : Effect
  | deleteObject (bucket : Py) (key : String) : Effect
deriving DecidableEq

/-- Is the effect a metadata-store write? -/
def Effect.isPut : Effect → Bool
  | .putItem _ => true
  | _ => false

/-- Is the effect a quarantine copy? -/
def Effect.isCopy : Effect → Bool
  | .copyObject _ _ _ _ => true
  | _ => false

/-- Is the effect an object deletion? -/
def Effect.isDelete : Effect → Bool
  | .deleteObject _ _ => true
  | _ => false

/-- The external collaborators of the FileProcessor handler, as response
functions: `getObject` yields the UTF-8 decoded object body (an error models
a missing object, an S3 fault, or a decode failure), `putItem` and
`copyObject` may fail with a client error.  `quarantineBucket` is the
`S3_QUARANTINE_BUCKET_NAME` configuration and `now` the value of
`datetime.now().isoformat()` during the invocation. -/
structure Env where
  getObject : Py → String → Except PyErr String
  putItem : Item → Except PyErr Unit
  copyObject : String → Py → String → String → Except PyErr Unit
  quarantineBucket : String
  now : String

/-- Shape of the response dicts `lambda_handler` returns: the 400
no-records body, the 200 success body, and the 500 failure body. -/
inductive Body where
  | noRecords (message : String) : Body
  | success (message s3Key : String) (isValid : Bool)
      (validationMessage jobId : String) : Body
  | failure (message error : String) : Body
deriving DecidableEq

/-- A handler response: status code plus body. -/
structure Resp where
  statusCode : Nat
  body : Body
deriving DecidableEq

/-- Outcome of the `try` block of `lambda_handler`: either a response with
the store calls issued, or the exception that escaped the block together
with the value of `file_content` at that point (`""` until the read
succeeds) and the store calls issued before the failure. -/
inductive InnerResult where
  | done (resp : Resp) (trace : List Effect) : InnerResult
  | failed (e : PyErr) (contentSoFar : String) (trace : List Effect) : InnerResult

/-- JobId field of a record built by `extract_metadata` (always present as a
string by construction); models the lookup `metadata['JobId']` in the
success response. -/
def itemJobId (m : Item) : String :=
  match itemGet? m "JobId" with
  | some (.str s) => s
  | _ => ""

/-- The record persisted on the success path: the extracted base record
with `ValidationStatus`, `ValidationMessage` and `SourceBucket` merged in
(lines `metadata['ValidationStatus'] = ...` of the source). -/
def mergedItem (base : Item) (v : Bool × String) (source_bucket_name : Py) :
    Item :=
  base ++ [("ValidationStatus", .str (if v.1 then "VALID" else "INVALID")),
           ("ValidationMessage", .str v.2),
           ("SourceBucket", source_bucket_name)]

/-- The 200 response dict of `lambda_handler`. -/
def successResp (s3_key : String) (v : Bool × String) (m : Item) : Resp :=
  ⟨200, .success "File processed successfully" s3_key v.1 v.2 (itemJobId m)⟩

/-- Embeds the body of the `try` block of `lambda_handler` in
`src/lambda/FileProcessor/lambda_function.py`: read and decode the object,
validate, extract, merge the validation fields into the record, persist it,
and copy the object to `invalid/<key>` in the quarantine bucket when the
content was rejected.  Logging (`print`) is outside the model. -/
def processInner (env : Env) (source_bucket_name : Py) (s3_key : String) :
    InnerResult :=
  match env.getObject source_bucket_name s3_key with
  | .error e => .failed e "" [.getObject source_bucket_name s3_key]
  | .ok file_content =>
    match extract_metadata file_content s3_key env.now with
    | .error e => .failed e file_content [.getObject source_bucket_name s3_key]
    | .ok base =>
      match env.putItem
          (mergedItem base (validate_file_content file_content)
            source_bucket_name) with
      | .error e => .failed e file_content
          [.getObject source_bucket_name s3_key,
           .putItem (mergedItem base (validate_file_content file_content)
             source_bucket_name)]
      | .ok _ =>
        if (validate_file_content file_content).1 then
          .done
            (successResp s3_key (validate_file_content file_content)
              (mergedItem base (validate_file_content file_content)
                source_bucket_name))
            [.getObject source_bucket_name s3_key,
             .putItem (mergedItem base (validate_file_content file_content)
               source_bucket_name)]
        else
          match env.copyObject env.quarantineBucket source_bucket_name s3_key
              ("invalid/" ++ s3_key) with
          | .error e => .failed e file_content
              [.getObject source_bucket_name s3_key,
               .putItem (mergedItem base (validate_file_content file_content)
                 source_bucket_name),
               .copyObject env.quarantineBucket source_bucket_name s3_key
                 ("invalid/" ++ s3_key)]
          | .ok _ => .done
              (successResp s3_key (validate_file_content file_content)
                (mergedItem base (validate_file_content file_content)
                  source_bucket_name))
              [.getObject source_bucket_name s3_key,
               .putItem (mergedItem base (validate_file_content file_content)
                 source_bucket_name),
               .copyObject env.quarantineBucket source_bucket_name s3_key
                 ("invalid/" ++ s3_key)]

/-- The failure record built in the `except` branch of `lambda_handler`:
JobId is the S3 key itself, the validation status is PROCESSING_FAILED, the
message is `str(e)`, and FileSize is
`len(file_content.encode('utf-8')) if file_content else 0`. -/
def failureItem (s3_key : String) (e : PyErr) (file_content : String)
    (source_bucket_name : Py) (now : String) : Item :=
  [("JobId", .str s3_key),
   ("Timestamp", .str now),
   ("S3Key", .str s3_key),
   ("ValidationStatus", .str "PROCESSING_FAILED"),
   ("ValidationMessage", .str (errStr e)),
   ("OriginalFileName", .str (original_filename_of s3_key)),
   ("FileSize", .int (if file_content ≠ "" then (utf8Len file_content : Int) else 0)),
   ("SourceBucket", source_bucket_name)]

/-- Embeds `lambda_handler` from
`src/lambda/FileProcessor/lambda_function.py`.  The event is an arbitrary
`Py` value; the record-shape accesses before the `try` block
(`event['Records'][0]`, `record['s3']`, `s3_event['bucket']['name']`,
`s3_event['object']['key']`) are outside any handler, so their exceptions
propagate to the caller (`Except.error`).  A non-string object key is
modelled as an uncaught `AttributeError`: with a non-string key boto3
rejects the `get_object` call inside the `try` block and the `except`
branch itself then raises `AttributeError` at `s3_key.split`, so no store
call ever completes — matching the model, which issues no effect in that
case.  On the failure branch the `put_item` of the failure record is
attempted (recorded in the trace) and its own failure is only logged, the
500 response being returned either way. -/
def lambda_handler (env : Env) (event : Py) :
    Except PyErr (Resp × List Effect) :=
  match pyContains event "Records" with
  | .error e => .error e
  | .ok hasRecords =>
    let noRecResp : Resp × List Effect :=
      (⟨400, .noRecords "No S3 records found in the event"⟩, [])
    if !hasRecords then .ok noRecResp
    else
      match pySubscript event "Records" with
      | .error e => .error e
      | .ok records =>
        if !(pyTruthy records) then .ok noRecResp
        else
          match pyIndex records 0 with
          | .error e => .error e
          | .ok record =>
            match pySubscript record "s3" with
            | .error e => .error e
            | .ok s3_event =>
              match pySubscript s3_event "bucket" with
              | .error e => .error e
              | .ok bucketObj =>
                match pySubscript bucketObj "name" with
                | .error e => .error e
                | .ok source_bucket_name =>
                  match pySubscript s3_event "object" with
                  | .error e => .error e
                  | .ok keyVal =>
                    match pySubscript keyVal "key" with
                    | .error e => .error e
                    | .ok keyPy =>
                      match keyPy with
                      | .str s3_key =>
                        match processInner env source_bucket_name s3_key with
                        | .done resp tr => .ok (resp, tr)
                        | .failed e file_content tr =>
                          let fi := failureItem s3_key e file_content
                            source_bucket_name env.now
                          .ok (⟨500, .failure ("Error processing file " ++ s3_key)
                                  (errStr e)⟩,
                               tr ++ [Effect.putItem fi])
                      | _ => .error (.attributeError
                          "object has no attribute split")

/-- The S3 object-creation notification carrying one record for the given
bucket value and object key — the event shape the processing trigger
delivers. -/
def s3EventP (bucket : Py) (key : String) : Py :=
  .dict (.cons "Records"
    (.list (.cons
      (.dict (.cons "s3"
        (.dict (.cons "bucket" (.dict (.cons "name" bucket .nil))
          (.cons "object" (.dict (.cons "key" (.str key) .nil)) .nil)))
        .nil))
      .nil))
    .nil)

/-- A single-record event with string bucket and key. -/
def s3Event (bucket key : String) : Py := s3EventP (.str bucket) key

/-- An environment whose store calls all succeed and whose object read
yields `content`. -/
def envWith (content : String) : Env where
  getObject := fun _ _ => .ok content
  putItem := fun _ => .ok ()
  copyObject := fun _ _ _ _ => .ok ()
  quarantineBucket := "quarantine-bucket"
  now := "2026-01-01T00:00:00"

/-- An environment whose object read raises (missing object). -/
def envReadFail : Env where
  getObject := fun _ _ => .error (.clientError "NoSuchKey")
  putItem := fun _ => .ok ()
  copyObject := fun _ _ _ _ => .ok ()
  quarantineBucket := "quarantine-bucket"
  now := "2026-01-01T00:00:00"

/-- The effect trace of a handler invocation (empty when the handler itself
raises, in which case no store call was issued). -/
def handlerTrace (env : Env) (event : Py) : List Effect :=
  match lambda_handler env event with
  | .ok (_, tr) => tr
  | .error _ => []

/-- External collaborators of the GetPresignedURL handler: the
`S3_INPUT_BUCKET_NAME` configuration (`Option.none` models an unset
environment variable), the uuid4 value drawn during the invocation, and
`generate_presigned_url`, which may raise. -/
structure PEnv where
  inputBucket : Option String
  uuid : String
  presign : String → String → Except PyErr String

/-- A response of the GetPresignedURL handler: status code, headers dict
(in construction order) and body. -/
inductive PBody where
  | err (message : String) : PBody
  | errDetails (message details : String) : PBody
  | success (message uploadUrl fileKey : String) : PBody
deriving DecidableEq

/-- GetPresignedURL response. -/
structure PResp where
  statusCode : Nat
  headers : List (String × String)
  body : PBody
deriving DecidableEq

/-- The header dict used by the 200 response and the generic 500 response of
`src/lambda/GetPresignedURL/lambda_function.py`. -/
def corsHeaders : List (String × String) :=
  [("Content-Type", "application/json"),
   ("Access-Control-Allow-Origin", "*"),
   ("Access-Control-Allow-Headers",
     "Content-Type,X-Amz-Date,Authorization,X-Api-Key,X-Amz-Security-Token"),
   ("Access-Control-Allow-Methods", "OPTIONS,POST")]

/-- The header dict used by the other responses of
`src/lambda/GetPresignedURL/lambda_function.py`. -/
def plainHeaders : List (String × String) :=
  [("Content-Type", "application/json")]

/-- Python `.get(key)` (`body.get('filename')`): `None` when the key is
absent from a dict; `AttributeError` on a value without a `.get` method. -/
def pyGetAttr (data : Py) (key : String) : Except PyErr Py :=
  match data with
  | .dict d =>
      match dictGet? d key with
      | some v => .ok v
      | Option.none => .ok .none
  | _ => .error (.attributeError "object has no attribute get")

/-- The generic unexpected-error 500 response of the upload-credential
endpoint (this one does carry the CORS headers). -/
def presign500 (e : PyErr) : PResp :=
  ⟨500, corsHeaders, .errDetails "Internal server error" (errStr e)⟩

/-- Embeds `lambda_handler` from
`src/lambda/GetPresignedURL/lambda_function.py`.  The `try` block parses
`event['body']` as JSON, requires a truthy `filename`, composes the object
key `<uuid4>-<filename>` and requests a presigned URL.  Exception routing
follows the source's `except` clauses: `json.JSONDecodeError` and
`KeyError` yield 400 responses without CORS headers, any other exception
yields the generic 500 response with CORS headers.  The misconfiguration
500 and both 400 responses carry `plainHeaders` only. -/
def presign_lambda_handler (env : PEnv) (event : Py) : PResp :=
  match env.inputBucket with
  | Option.none =>
      ⟨500, plainHeaders,
        .err "Internal server error: S3 bucket name not configured."⟩
  | some bucket =>
    if bucket = "" then
      ⟨500, plainHeaders,
        .err "Internal server error: S3 bucket name not configured."⟩
    else
      match pySubscript event "body" with
      | .error (.keyError k) =>
          ⟨400, plainHeaders, .err ("Missing expected key: '" ++ k ++ "'")⟩
      | .error e => presign500 e
      | .ok bodyVal =>
        match bodyVal with
        | .str bodyStr =>
          (match json_loads bodyStr with
           | .error _ => ⟨400, plainHeaders, .err "Invalid JSON in request body"⟩
           | .ok bodyPy =>
             match pyGetAttr bodyPy "filename" with
             | .error e => presign500 e
             | .ok filenameVal =>
               if !(pyTruthy filenameVal) then
                 ⟨400, plainHeaders, .err "Missing filename in request body"⟩
               else
                 let s3_object_key := env.uuid ++ "-" ++ pyStr filenameVal
                 match env.presign bucket s3_object_key with
                 | .error e => presign500 e
                 | .ok url =>
                     ⟨200, corsHeaders,
                       .success "Pre-signed URL generated successfully" url
                         s3_object_key⟩)
        | _ => presign500 (.typeError
            "the JSON object must be str, bytes or bytearray")

/-- A GetPresignedURL environment with a configured bucket, a fixed uuid
and a presign call that succeeds. -/
def penvOk : PEnv where
  inputBucket := some "input-bucket"
  uuid := "123e4567-e89b-12d3-a456-426614174000"
  presign := fun bucket key => .ok ("https://" ++ bucket ++ "/" ++ key)

/-- An API-Gateway event whose body is the given string. -/
def apiEvent (body : String) : Py :=
  .dict (.cons "body" (.str body) .nil)

/-! ## Helper lemmas -/

/-- A dash-free character list has nothing after a first dash. -/
theorem afterFirstDash_eq_none (l : List Char) (h : hasDash l = false) :
    afterFirstDash l = Option.none := by
  induction l with
  | nil => rfl
  | cons c cs ih =>
      rw [hasDash, Bool.or_eq_false_iff] at h
      have hc : ¬ c = '-' := by
        intro he; rw [he] at h; simp at h
      rw [afterFirstDash, if_neg hc]
      exact ih h.2

/-- Splitting after the first dash of `pre ++ '-' :: post` yields `post`
when `pre` is dash-free. -/
theorem afterFirstDash_append (pre post : List Char) (h : hasDash pre = false) :
    afterFirstDash (pre ++ '-' :: post) = some post := by
  induction pre with
  | nil => simp [afterFirstDash]
  | cons c cs ih =>
      rw [hasDash, Bool.or_eq_false_iff] at h
      have hc : ¬ c = '-' := by
        intro he; rw [he] at h; simp at h
      rw [List.cons_append, afterFirstDash, if_neg hc]
      exact ih h.2

/-- A key contained in a dict spine has a lookup value. -/
theorem dictGet?_of_contains (d : PyDict) (k : String) :
    dictContains d k = true → ∃ v, dictGet? d k = some v :=
  match d with
  | .nil => by intro h; rw [dictContains] at h; cases h
  | .cons k2 v tl => by
      intro h
      by_cases hk : k2 = k
      · exact ⟨v, by rw [dictGet?, if_pos hk]⟩
      · have hb : (k2 == k) = false := beq_eq_false_iff_ne.mpr hk
        rw [dictContains, hb, Bool.false_or] at h
        obtain ⟨w, hw⟩ := dictGet?_of_contains tl k h
        exact ⟨w, by rw [dictGet?, if_neg hk]; exact hw⟩

/-- A key with a lookup value is contained in the dict spine. -/
theorem dictContains_of_get (d : PyDict) (k : String) (v : Py) :
    dictGet? d k = some v → dictContains d k = true :=
  match d with
  | .nil => by intro h; rw [dictGet?] at h; cases h
  | .cons k2 w tl => by
      intro h
      by_cases hk : k2 = k
      · rw [dictContains, beq_iff_eq.mpr hk, Bool.true_or]
      · rw [dictGet?, if_neg hk] at h
        rw [dictContains, dictContains_of_get tl k v h, Bool.or_true]

/-! ## Claims -/

/-- C1 (confirmed): for every string content the Content Validator returns
exactly one of three outcomes, checked in order: empty content is rejected
with "File is empty"; non-empty content whose lower-cased text lacks the
literal substring "job_id" is rejected with "Content missing 'job_id'
keyword"; all other content — in particular any non-empty content
containing "job_id" in any letter case — is accepted with "Valid". -/
theorem claim1_validator_cases (content : String) :
    (content = "" → validate_file_content content = (false, "File is empty")) ∧
    (content ≠ "" → strHasSub (strLower content) "job_id" = false →
      validate_file_content content = (false, "Content missing 'job_id' keyword")) ∧
    (content ≠ "" → strHasSub (strLower content) "job_id" = true →
      validate_file_content content = (true, "Valid")) := by
  refine ⟨fun h => ?_, fun h1 h2 => ?_, fun h1 h2 => ?_⟩ <;>
    simp [validate_file_content, *]

/-- C1 witness: the validator accepts "JOB_ID 7" (non-empty, keyword in
upper case) via `claim1_validator_cases`. -/
theorem claim1_validator_cases_witness :
    validate_file_content "JOB_ID 7" = (true, "Valid") :=
  (claim1_validator_cases "JOB_ID 7").2.2 (by decide) (by decide)

/-- C7 counterexample: the claim "for every key of the form <token>-<name>
where <name> contains no further separator, recovery returns <name>
exactly" fails at token "a-b", name "c": the key "a-b-c" is of that form,
"c" contains no separator, yet recovery returns "b-c". -/
theorem claim7_counterexample :
    "a-b" ++ "-" ++ "c" = "a-b-c" ∧
    hasDash "c".toList = false ∧
    original_filename_of "a-b-c" = "b-c" ∧
    ¬ original_filename_of ("a-b" ++ "-" ++ "c") = "c" := by decide

/-- C7 (corrected): OriginalFileName recovery splits the key on the first
occurrence of "-" and takes the remainder (for any key `token ++ "-" ++
rest` with a dash-free `token`, the remainder `rest` is recovered, whatever
it contains), and returns the whole key when no separator is present.  The
"in particular" clause holds once the token is also required to be
separator-free: instantiate `rest` with a dash-free name. -/
theorem claim7_split_recovery (key token rest : String)
    (h1 : hasDash key.toList = false)
    (h2 : hasDash token.toList = false) :
    original_filename_of key = key ∧
    original_filename_of (token ++ "-" ++ rest) = rest := by
  constructor
  · rw [original_filename_of, afterFirstDash_eq_none key.toList h1]
  · have hlist : (token ++ "-" ++ rest).toList =
        token.toList ++ '-' :: rest.toList := by
      simp [String.toList, String.data_append]
    rw [original_filename_of, hlist, afterFirstDash_append _ _ h2]
    cases rest
    rfl

/-- C7 witness: key "41f-report.csv" with dash-free token "41f" recovers
"report.csv", and a dash-free key "plain.csv" is returned whole, via
`claim7_split_recovery`. -/
theorem claim7_split_recovery_witness :
    original_filename_of "plain.csv" = "plain.csv" ∧
    original_filename_of ("41f" ++ "-" ++ "report.csv") = "report.csv" :=
  claim7_split_recovery "plain.csv" "41f" "report.csv" (by decide) (by decide)

/-- C4 counterexample: the Metadata Extractor does not return a record for
every input — the content "null" parses as JSON `None`, the membership test
`'job_id' in data` then raises an uncaught `TypeError`, and
`extract_metadata` propagates it instead of yielding JobId "UNKNOWN". -/
theorem claim4_counterexample :
    extract_metadata "null" "report.csv" "2026-01-01T00:00:00" =
      .error (.typeError "argument of type NoneType is not iterable") := rfl

/-- C4 (corrected): the Metadata Extractor returns a record without raising
whenever the content fails to parse (the decode error is swallowed and
JobId defaults to "UNKNOWN"), parses as a structured document (a JSON
object), or parses as a string or array in which no job-identifier marker
occurs (Python `in` is a substring or membership test there); but for some
content parsing to a non-object value extraction does raise — e.g. "null",
where the membership test on `None` raises a `TypeError` that propagates to
the orchestrator (see `claim4_counterexample`). -/
theorem claim4_extract_total (content key now : String) :
    ((json_loads content).isOk = false →
      ∃ r, extract_metadata content key now = .ok r) ∧
    (∀ d : PyDict, json_loads content = .ok (.dict d) →
      ∃ r, extract_metadata content key now = .ok r) ∧
    (∀ s, json_loads content = .ok (.str s) →
      strHasSub s "job_id" = false → strHasSub s "JobId" = false →
      ∃ r, extract_metadata content key now = .ok r) ∧
    (∀ xs, json_loads content = .ok (.list xs) →
      pyListHasStr xs "job_id" = false → pyListHasStr xs "JobId" = false →
      ∃ r, extract_metadata content key now = .ok r) := by
  refine ⟨?_, ?_, ?_, ?_⟩
  · intro h
    cases hj : json_loads content with
    | ok v => rw [hj] at h; cases h
    | error e =>
        refine ⟨[("JobId", .str "UNKNOWN"),
                 ("OriginalFileName", .str (original_filename_of key)),
                 ("S3Key", .str key),
                 ("FileSize", .int (utf8Len content : Int)),
                 ("ProcessingTimestamp", .str now)], ?_⟩
        rw [extract_metadata, hj]
        simp [pyStr]
  · intro d hj
    rw [extract_metadata, hj]
    simp only [pyContains]
    cases hc1 : dictContains d "job_id" with
    | true =>
        obtain ⟨v, hv⟩ := dictGet?_of_contains d "job_id" hc1
        refine ⟨[("JobId", .str (pyStr v)),
                 ("OriginalFileName", .str (original_filename_of key)),
                 ("S3Key", .str key),
                 ("FileSize", .int (utf8Len content : Int)),
                 ("ProcessingTimestamp", .str now)], ?_⟩
        simp [pySubscript, hv]
    | false =>
        cases hc2 : dictContains d "JobId" with
        | true =>
            obtain ⟨v, hv⟩ := dictGet?_of_contains d "JobId" hc2
            refine ⟨[("JobId", .str (pyStr v)),
                     ("OriginalFileName", .str (original_filename_of key)),
                     ("S3Key", .str key),
                     ("FileSize", .int (utf8Len content : Int)),
                     ("ProcessingTimestamp", .str now)], ?_⟩
            simp [pySubscript, hv]
        | false =>
            refine ⟨[("JobId", .str "UNKNOWN"),
                     ("OriginalFileName", .str (original_filename_of key)),
                     ("S3Key", .str key),
                     ("FileSize", .int (utf8Len content : Int)),
                     ("ProcessingTimestamp", .str now)], ?_⟩
            simp [pyStr]
  · intro str hj h1 h2
    refine ⟨[("JobId", .str "UNKNOWN"),
             ("OriginalFileName", .str (original_filename_of key)),
             ("S3Key", .str key),
             ("FileSize", .int (utf8Len content : Int)),
             ("ProcessingTimestamp", .str now)], ?_⟩
    rw [extract_metadata, hj]
    simp [pyContains, h1, h2, pyStr]
  · intro xs hj h1 h2
    refine ⟨[("JobId", .str "UNKNOWN"),
             ("OriginalFileName", .str (original_filename_of key)),
             ("S3Key", .str key),
             ("FileSize", .int (utf8Len content : Int)),
             ("ProcessingTimestamp", .str now)], ?_⟩
    rw [extract_metadata, hj]
    simp [pyContains, h1, h2, pyStr]

/-- C4 witness: non-JSON content "plain text" and the JSON string content
`"hello"` (a non-object parse) both yield records without exception, via
`claim4_extract_total`. -/
theorem claim4_extract_total_witness :
    (∃ r, extract_metadata "plain text" "k.csv" "2026-01-01T00:00:00" = .ok r) ∧
    (∃ r, extract_metadata "\"hello\"" "k.csv" "2026-01-01T00:00:00" = .ok r) :=
  ⟨(claim4_extract_total "plain text" "k.csv" "2026-01-01T00:00:00").1
     (by decide),
   (claim4_extract_total "\"hello\"" "k.csv" "2026-01-01T00:00:00").2.2.1
     "hello" rfl (by decide) (by decide)⟩

/-- C6 (confirmed): round-trip of the job identifier.  For content parsing
as a structured document (a JSON object): a "job_id" field yields JobId
equal to that field's value coerced to string; otherwise a "JobId" field
yields its value coerced to string; with neither spelling JobId is
"UNKNOWN".  Content that fails to parse also yields "UNKNOWN". -/
theorem claim6_jobid_roundtrip (content key now : String) :
    (∀ d : PyDict, json_loads content = .ok (.dict d) →
      ((∀ v, dictGet? d "job_id" = some v →
          ∃ r, extract_metadata content key now = .ok r ∧
            itemGet? r "JobId" = some (.str (pyStr v))) ∧
       (dictContains d "job_id" = false →
        ∀ v, dictGet? d "JobId" = some v →
          ∃ r, extract_metadata content key now = .ok r ∧
            itemGet? r "JobId" = some (.str (pyStr v))) ∧
       (dictContains d "job_id" = false → dictContains d "JobId" = false →
          ∃ r, extract_metadata content key now = .ok r ∧
            itemGet? r "JobId" = some (.str "UNKNOWN")))) ∧
    ((json_loads content).isOk = false →
      ∃ r, extract_metadata content key now = .ok r ∧
        itemGet? r "JobId" = some (.str "UNKNOWN")) := by
  constructor
  · intro d hj
    refine ⟨fun v hv => ?_, fun hc1 v hv => ?_, fun hc1 hc2 => ?_⟩
    · have hc1 : dictContains d "job_id" = true := dictContains_of_get d _ v hv
      have hext : extract_metadata content key now =
          .ok [("JobId", .str (pyStr v)),
               ("OriginalFileName", .str (original_filename_of key)),
               ("S3Key", .str key),
               ("FileSize", .int (utf8Len content : Int)),
               ("ProcessingTimestamp", .str now)] := by
        rw [extract_metadata, hj]
        simp [pyContains, hc1, pySubscript, hv]
      exact ⟨_, hext, by simp [itemGet?]⟩
    · have hc2 : dictContains d "JobId" = true := dictContains_of_get d _ v hv
      have hext : extract_metadata content key now =
          .ok [("JobId", .str (pyStr v)),
               ("OriginalFileName", .str (original_filename_of key)),
               ("S3Key", .str key),
               ("FileSize", .int (utf8Len content : Int)),
               ("ProcessingTimestamp", .str now)] := by
        rw [extract_metadata, hj]
        simp [pyContains, hc1, hc2, pySubscript, hv]
      exact ⟨_, hext, by simp [itemGet?]⟩
    · have hext : extract_metadata content key now =
          .ok [("JobId", .str "UNKNOWN"),
               ("OriginalFileName", .str (original_filename_of key)),
               ("S3Key", .str key),
               ("FileSize", .int (utf8Len content : Int)),
               ("ProcessingTimestamp", .str now)] := by
        rw [extract_metadata, hj]
        simp [pyContains, hc1, hc2, pyStr]
      exact ⟨_, hext, by simp [itemGet?]⟩
  · intro h
    cases hj : json_loads content with
    | ok v => rw [hj] at h; cases h
    | error e =>
        have hext : extract_metadata content key now =
            .ok [("JobId", .str "UNKNOWN"),
                 ("OriginalFileName", .str (original_filename_of key)),
                 ("S3Key", .str key),
                 ("FileSize", .int (utf8Len content : Int)),
                 ("ProcessingTimestamp", .str now)] := by
          rw [extract_metadata, hj]
          simp [pyStr]
        exact ⟨_, hext, by simp [itemGet?]⟩

/-- C6 witness: content with a "job_id" field round-trips the identifier
"J1", via `claim6_jobid_roundtrip`. -/
theorem claim6_jobid_roundtrip_witness :
    ∃ r, extract_metadata "\x7b\"job_id\": \"J1\"\x7d" "abc-f.csv" "t" = .ok r ∧
      itemGet? r "JobId" = some (.str "J1") :=
  ((claim6_jobid_roundtrip "\x7b\"job_id\": \"J1\"\x7d" "abc-f.csv" "t").1
    (.cons "job_id" (.str "J1") .nil) rfl).1 (.str "J1") rfl

/-- On a well-shaped single-record event the handler reduces to the `try`
block plus, on its failure, the `except` branch. -/
theorem lambda_handler_s3EventP (env : Env) (bucket : Py) (key : String) :
    lambda_handler env (s3EventP bucket key) =
      match processInner env bucket key with
      | .done resp tr => .ok (resp, tr)
      | .failed e content tr =>
          .ok (⟨500, .failure ("Error processing file " ++ key) (errStr e)⟩,
               tr ++ [Effect.putItem (failureItem key e content bucket env.now)]) :=
  rfl

/-- A normal completion of the `try` block always carries status 200. -/
theorem processInner_done_status (env : Env) (bucket : Py) (key : String)
    (resp : Resp) (tr : List Effect)
    (h : processInner env bucket key = .done resp tr) :
    resp.statusCode = 200 := by
  unfold processInner at h
  split at h
  · cases h
  · split at h
    · cases h
    · split at h
      · cases h
      · split at h
        · injection h with h1 _
          rw [← h1]
          rfl
        · split at h
          · cases h
          · injection h with h1 _
            rw [← h1]
            rfl

/-- C9 (confirmed): for every triggering event with zero records — no
"Records" field, or a "Records" field holding the empty list — the handler
returns the 400 no-records outcome and its effect trace is empty: no
object-store read or write and no metadata-store write is performed. -/
theorem claim9_no_records_no_writes (env : Env) (d : PyDict)
    (h : dictContains d "Records" = false ∨
      dictGet? d "Records" = some (.list .nil)) :
    lambda_handler env (.dict d) =
      .ok (⟨400, .noRecords "No S3 records found in the event"⟩, []) := by
  rcases h with h | h
  · simp [lambda_handler, pyContains, h]
  · cases hc : dictContains d "Records" with
    | false => simp [lambda_handler, pyContains, hc]
    | true => simp [lambda_handler, pyContains, hc, pySubscript, h, pyTruthy]

/-- C9 witness: the empty event and the event with an empty record list
both yield 400 with no effects, via `claim9_no_records_no_writes`. -/
theorem claim9_no_records_no_writes_witness :
    lambda_handler (envWith "x") (.dict .nil) =
      .ok (⟨400, .noRecords "No S3 records found in the event"⟩, []) ∧
    lambda_handler (envWith "x") (.dict (.cons "Records" (.list .nil) .nil)) =
      .ok (⟨400, .noRecords "No S3 records found in the event"⟩, []) :=
  ⟨claim9_no_records_no_writes (envWith "x") .nil (Or.inl rfl),
   claim9_no_records_no_writes (envWith "x")
     (.cons "Records" (.list .nil) .nil) (Or.inr rfl)⟩

/-- C5 counterexample: the handler does let an exception propagate for a
malformed record — an event with one record lacking the "s3" field raises
an uncaught `KeyError` instead of returning a structured response, because
the record-shape accesses sit before the `try` block. -/
theorem claim5_counterexample :
    lambda_handler (envWith "x")
      (.dict (.cons "Records" (.list (.cons (.dict .nil) .nil)) .nil)) =
      .error (.keyError "s3") := rfl

/-- C5 (corrected): for every event with at least one record of the
expected shape (s3.bucket.name and s3.object.key present, the key a
string), the handler returns a structured response with status 200 or 500
and never lets an exception propagate; but for records of malformed shape
the field accesses happen before the `try` block and their `KeyError`
propagates uncaught (see `claim5_counterexample`). -/
theorem claim5_wellformed_structured (env : Env) (bucket : Py) (key : String) :
    ∃ resp tr, lambda_handler env (s3EventP bucket key) = .ok (resp, tr) ∧
      (resp.statusCode = 200 ∨ resp.statusCode = 500) := by
  rw [lambda_handler_s3EventP]
  cases h : processInner env bucket key with
  | done resp tr =>
      exact ⟨resp, tr, rfl,
        Or.inl (processInner_done_status env bucket key resp tr h)⟩
  | failed e content tr => exact ⟨_, _, rfl, Or.inr rfl⟩

/-- C3 (confirmed): whenever any step of the `try` block — read, decode,
validate/extract, persist, quarantine — raises, the handler persists a
failure record with JobId the storage key itself, status
PROCESSING_FAILED, message `str(e)` and FileSize the UTF-8 byte length of
whatever content was read before the failure (0 when the read itself
failed), and returns the 500 outcome.  The conclusion holds for every
environment, in particular when the persistence attempt of the failure
record itself fails: the attempt is still issued and the 500 outcome still
returned. -/
theorem claim3_failure_branch (env : Env) (bucket : Py) (key : String)
    (e : PyErr) (content : String) (tr : List Effect)
    (hfail : processInner env bucket key = .failed e content tr) :
    lambda_handler env (s3EventP bucket key) =
      .ok (⟨500, .failure ("Error processing file " ++ key) (errStr e)⟩,
           tr ++ [Effect.putItem (failureItem key e content bucket env.now)]) ∧
    itemGet? (failureItem key e content bucket env.now) "JobId" =
      some (.str key) ∧
    itemGet? (failureItem key e content bucket env.now) "ValidationStatus" =
      some (.str "PROCESSING_FAILED") ∧
    itemGet? (failureItem key e content bucket env.now) "ValidationMessage" =
      some (.str (errStr e)) ∧
    itemGet? (failureItem key e content bucket env.now) "FileSize" =
      some (.int (utf8Len content : Int)) := by
  refine ⟨by rw [lambda_handler_s3EventP, hfail], rfl, rfl, rfl, ?_⟩
  by_cases hc : content = ""
  · subst hc; rfl
  · simp [failureItem, itemGet?, hc]

/-- C3 witness: a failing object read yields the 500 outcome and the
persisted failure record for the key, via `claim3_failure_branch`. -/
theorem claim3_failure_branch_witness :
    lambda_handler envReadFail (s3Event "b" "k") =
      .ok (⟨500, .failure "Error processing file k" "NoSuchKey"⟩,
           [.getObject (.str "b") "k",
            .putItem (failureItem "k" (.clientError "NoSuchKey") "" (.str "b")
              "2026-01-01T00:00:00")]) :=
  (claim3_failure_branch envReadFail (.str "b") "k" (.clientError "NoSuchKey")
    "" [.getObject (.str "b") "k"] rfl).1

/-- C2 counterexample: an event whose object read and decode succeed with
content "null" — rejected by the validator — performs no quarantine copy:
`extract_metadata` raises on the parsed non-dict value, the failure branch
persists a PROCESSING_FAILED record and never copies, contradicting "a
quarantine copy if and only if the content was rejected". -/
theorem claim2_counterexample :
    (envWith "null").getObject (.str "b") "k" = .ok "null" ∧
    (validate_file_content "null").1 = false ∧
    (handlerTrace (envWith "null") (s3Event "b" "k")).countP Effect.isPut = 1 ∧
    (handlerTrace (envWith "null") (s3Event "b" "k")).all
      (fun eff => !eff.isCopy) = true :=
  ⟨rfl, rfl, rfl, rfl⟩

/-- C2 (corrected): for every processing event whose object read and decode
succeed, whose metadata extraction does not raise, and whose store writes
succeed, the handler persists exactly one record (for both validation
outcomes), issues a quarantine copy if and only if the content was
rejected, the only copy targets the quarantine bucket at key
"invalid/" ++ key, and the source object is never deleted.  (Without the
extraction and store-write hypotheses the "if and only if" fails, see
`claim2_counterexample`.) -/
theorem claim2_persist_quarantine (env : Env) (bucket : Py)
    (key content : String) (base : Item)
    (hread : env.getObject bucket key = .ok content)
    (hext : extract_metadata content key env.now = .ok base)
    (hput : ∀ item, env.putItem item = .ok ())
    (hcopy : ∀ db sb sk dk, env.copyObject db sb sk dk = .ok ()) :
    ∃ resp tr, lambda_handler env (s3EventP bucket key) = .ok (resp, tr) ∧
      tr.countP Effect.isPut = 1 ∧
      (tr.any Effect.isCopy = true ↔ (validate_file_content content).1 = false) ∧
      (∀ eff ∈ tr, eff.isCopy = true →
        eff = .copyObject env.quarantineBucket bucket key ("invalid/" ++ key)) ∧
      tr.all (fun eff => !eff.isDelete) = true := by
  rw [lambda_handler_s3EventP]
  cases hv : (validate_file_content content).1 with
  | true =>
      have hpi : processInner env bucket key =
          .done (successResp key (validate_file_content content)
              (mergedItem base (validate_file_content content) bucket))
            [.getObject bucket key,
             .putItem (mergedItem base (validate_file_content content) bucket)] := by
        unfold processInner
        simp [hread, hext, hput, hv]
      rw [hpi]
      refine ⟨_, _, rfl, ?_, ?_, ?_, ?_⟩
      · simp [List.countP_cons, Effect.isPut]
      · simp [Effect.isCopy, hv]
      · intro eff hm hciff
        simp only [List.mem_cons, List.not_mem_nil, or_false] at hm
        rcases hm with rfl | rfl <;> simp [Effect.isCopy] at hciff
      · simp [Effect.isDelete]
  | false =>
      have hpi : processInner env bucket key =
          .done (successResp key (validate_file_content content)
              (mergedItem base (validate_file_content content) bucket))
            [.getObject bucket key,
             .putItem (mergedItem base (validate_file_content content) bucket),
             .copyObject env.quarantineBucket bucket key ("invalid/" ++ key)] := by
        unfold processInner
        simp [hread, hext, hput, hv, hcopy]
      rw [hpi]
      refine ⟨_, _, rfl, ?_, ?_, ?_, ?_⟩
      · simp [List.countP_cons, Effect.isPut]
      · simp [Effect.isCopy, hv]
      · intro eff hm hciff
        simp only [List.mem_cons, List.not_mem_nil, or_false] at hm
        rcases hm with rfl | rfl | rfl
        · simp [Effect.isCopy] at hciff
        · simp [Effect.isCopy] at hciff
        · rfl
      · simp [Effect.isDelete]

/-- C2 witness: content "job_id" (accepted) under an all-successful
environment yields one persisted record and no quarantine copy, via
`claim2_persist_quarantine`. -/
theorem claim2_persist_quarantine_witness :
    ∃ resp tr,
      lambda_handler (envWith "job_id") (s3Event "b" "k") = .ok (resp, tr) ∧
      tr.countP Effect.isPut = 1 ∧
      (tr.any Effect.isCopy = true ↔
        (validate_file_content "job_id").1 = false) ∧
      (∀ eff ∈ tr, eff.isCopy = true →
        eff = .copyObject (envWith "job_id").quarantineBucket (.str "b") "k"
          ("invalid/" ++ "k")) ∧
      tr.all (fun eff => !eff.isDelete) = true :=
  claim2_persist_quarantine (envWith "job_id") (.str "b") "k" "job_id"
    [("JobId", .str "UNKNOWN"), ("OriginalFileName", .str "k"),
     ("S3Key", .str "k"), ("FileSize", .int 6),
     ("ProcessingTimestamp", .str "2026-01-01T00:00:00")]
    rfl rfl (fun _ => rfl) (fun _ _ _ _ => rfl)

/-- C10 (confirmed): a quarantine copy is issued only after the metadata
record was successfully persisted — any trace containing a copy starts
with the object read, then a persist that succeeded, then the copy, and
nothing after the copy is another copy.  In particular, when persisting
the record raises, or on the failure branch, no quarantine copy is ever
issued. -/
theorem claim10_copy_after_persist (env : Env) (bucket : Py) (key : String)
    (resp : Resp) (tr : List Effect)
    (h : lambda_handler env (s3EventP bucket key) = .ok (resp, tr))
    (hc : tr.any Effect.isCopy = true) :
    ∃ item rest, env.putItem item = .ok () ∧
      tr = .getObject bucket key :: .putItem item ::
        .copyObject env.quarantineBucket bucket key ("invalid/" ++ key) :: rest ∧
      rest.all (fun eff => !eff.isCopy) = true := by
  rw [lambda_handler_s3EventP] at h
  cases hpi : processInner env bucket key with
  | done r t =>
      rw [hpi] at h
      injection h with h1
      injection h1 with hresp htr
      subst htr
      unfold processInner at hpi
      split at hpi
      next e1 heq1 => cases hpi
      next fc heq1 =>
        split at hpi
        next e2 heq2 => cases hpi
        next base heq2 =>
          split at hpi
          next e3 heq3 => cases hpi
          next u heq3 =>
            split at hpi
            next hval =>
              injection hpi with hr ht
              subst ht
              simp [Effect.isCopy] at hc
            next hval =>
              split at hpi
              next e4 heq4 => cases hpi
              next u2 heq4 =>
                injection hpi with hr ht
                subst ht
                exact ⟨mergedItem base (validate_file_content fc) bucket, [],
                  by cases u; exact heq3, rfl, rfl⟩
  | failed e content t =>
      rw [hpi] at h
      injection h with h1
      injection h1 with hresp htr
      subst htr
      unfold processInner at hpi
      split at hpi
      next e1 heq1 =>
        injection hpi with he hcont ht
        subst ht
        simp [Effect.isCopy, failureItem] at hc
      next fc heq1 =>
        split at hpi
        next e2 heq2 =>
          injection hpi with he hcont ht
          subst ht
          simp [Effect.isCopy, failureItem] at hc
        next base heq2 =>
          split at hpi
          next e3 heq3 =>
            injection hpi with he hcont ht
            subst ht
            simp [Effect.isCopy, failureItem] at hc
          next u heq3 =>
            split at hpi
            next hval => cases hpi
            next hval =>
              split at hpi
              next e4 heq4 =>
                injection hpi with he hcont ht
                subst ht
                exact ⟨mergedItem base (validate_file_content fc) bucket,
                  [.putItem (failureItem key e content bucket env.now)],
                  by cases u; exact heq3, rfl, rfl⟩
              next u2 heq4 => cases hpi

/-- C10 witness: rejected empty content under an all-successful environment
produces the trace read, persist, copy — the copy strictly after the
successful persist — via `claim10_copy_after_persist`. -/
theorem claim10_copy_after_persist_witness :
    ∃ item rest, (envWith "").putItem item = .ok () ∧
      [Effect.getObject (.str "b") "k",
       Effect.putItem (mergedItem
         [("JobId", .str "UNKNOWN"), ("OriginalFileName", .str "k"),
          ("S3Key", .str "k"), ("FileSize", .int 0),
          ("ProcessingTimestamp", .str "2026-01-01T00:00:00")]
         (validate_file_content "") (.str "b")),
       Effect.copyObject "quarantine-bucket" (.str "b") "k" "invalid/k"] =
        Effect.getObject (.str "b") "k" :: Effect.putItem item ::
          Effect.copyObject (envWith "").quarantineBucket (.str "b") "k"
            ("invalid/" ++ "k") :: rest ∧
      rest.all (fun eff => !eff.isCopy) = true :=
  claim10_copy_after_persist (envWith "") (.str "b") "k"
    (successResp "k" (validate_file_content "")
      (mergedItem
        [("JobId", .str "UNKNOWN"), ("OriginalFileName", .str "k"),
         ("S3Key", .str "k"), ("FileSize", .int 0),
         ("ProcessingTimestamp", .str "2026-01-01T00:00:00")]
        (validate_file_content "") (.str "b")))
    [Effect.getObject (.str "b") "k",
     Effect.putItem (mergedItem
       [("JobId", .str "UNKNOWN"), ("OriginalFileName", .str "k"),
        ("S3Key", .str "k"), ("FileSize", .int 0),
        ("ProcessingTimestamp", .str "2026-01-01T00:00:00")]
       (validate_file_content "") (.str "b")),
     Effect.copyObject "quarantine-bucket" (.str "b") "k" "invalid/k"]
    rfl rfl

/-- C8 counterexample: not every error response of the upload-credential
endpoint carries the CORS headers — the 400 missing-filename response
(configured bucket, valid JSON body without a filename) carries only
Content-Type, no Access-Control-Allow-Origin. -/
theorem claim8_counterexample :
    (presign_lambda_handler penvOk (apiEvent "\x7b\x7d")).statusCode = 400 ∧
    (presign_lambda_handler penvOk (apiEvent "\x7b\x7d")).headers =
      [("Content-Type", "application/json")] ∧
    (presign_lambda_handler penvOk (apiEvent "\x7b\x7d")).headers.all
      (fun p => p.1 != "Access-Control-Allow-Origin") = true :=
  ⟨rfl, rfl, rfl⟩

/-- C8 (corrected): every 200 response of the upload-credential endpoint
carries the CORS headers (Access-Control-Allow-Origin "*", allowed
headers, and allowed methods OPTIONS and POST); the 400 responses and the
misconfiguration 500 carry only Content-Type (only the generic
unexpected-error 500 also carries CORS headers, see `presign500` and
`claim8_counterexample`). -/
theorem claim8_cors_on_success (env : PEnv) (event : Py)
    (hds : List (String × String)) (bd : PBody)
    (h : presign_lambda_handler env event = ⟨200, hds, bd⟩) :
    hds = corsHeaders := by
  cases hbkt : env.inputBucket with
  | none => simp [presign_lambda_handler, hbkt] at h
  | some bucket =>
    by_cases hb : bucket = ""
    · simp [presign_lambda_handler, hbkt, hb] at h
    · cases hsub : pySubscript event "body" with
      | error e =>
          cases e <;>
            simp [presign_lambda_handler, hbkt, hb, hsub, presign500] at h
      | ok bodyVal =>
        cases bodyVal with
        | str s =>
          cases hjson : json_loads s with
          | error e2 =>
              simp [presign_lambda_handler, hbkt, hb, hsub, hjson] at h
          | ok data =>
            cases hget : pyGetAttr data "filename" with
            | error e3 =>
                simp [presign_lambda_handler, hbkt, hb, hsub, hjson, hget,
                  presign500] at h
            | ok fn =>
              cases htru : pyTruthy fn with
              | false =>
                  simp [presign_lambda_handler, hbkt, hb, hsub, hjson, hget,
                    htru] at h
              | true =>
                cases hps : env.presign bucket (env.uuid ++ "-" ++ pyStr fn) with
                | error e4 =>
                    simp [presign_lambda_handler, hbkt, hb, hsub, hjson, hget,
                      htru, hps, presign500] at h
                | ok url =>
                    have hh := h
                    simp [presign_lambda_handler, hbkt, hb, hsub, hjson, hget,
                      htru, hps] at hh
                    exact hh.1.symm
        | none =>
            simp [presign_lambda_handler, hbkt, hb, hsub, presign500] at h
        | bool b =>
            simp [presign_lambda_handler, hbkt, hb, hsub, presign500] at h
        | int n =>
            simp [presign_lambda_handler, hbkt, hb, hsub, presign500] at h
        | float lit =>
            simp [presign_lambda_handler, hbkt, hb, hsub, presign500] at h
        | list xs =>
            simp [presign_lambda_handler, hbkt, hb, hsub, presign500] at h
        | dict d =>
            simp [presign_lambda_handler, hbkt, hb, hsub, presign500] at h

/-- C8 witness: a successful credential request for "report.csv" returns
the CORS headers, via `claim8_cors_on_success`. -/
theorem claim8_cors_on_success_witness :
    (presign_lambda_handler penvOk
      (apiEvent "\x7b\"filename\": \"report.csv\"\x7d")).headers =
      corsHeaders :=
  claim8_cors_on_success penvOk
    (apiEvent "\x7b\"filename\": \"report.csv\"\x7d")
    (presign_lambda_handler penvOk
      (apiEvent "\x7b\"filename\": \"report.csv\"\x7d")).headers
    (presign_lambda_handler penvOk
      (apiEvent "\x7b\"filename\": \"report.csv\"\x7d")).body rfl

end SilentScalper
